import Mathlib

/-!
# Checkpoints (src/checkpoints.cpp)

A shallow embedding of the checkpoint subsystem: the two compiled-in
checkpoint tables, the registry that selects one of them by network mode,
and the four queries `CheckBlock`, `GetTotalBlocksEstimate`,
`GetLastCheckpoint` and `GuessVerificationProgress`.

Conventions of the embedding.

* `uint256` values are natural numbers (the hexadecimal literal of the
  source), `int` and `int64` values are integers.
* `std::map<int, uint256>` is the list of its records in iteration order,
  that is in increasing key order; `MapCheckpoints.insert` is the ordered
  insertion of `std::map::insert` (an existing key is kept).
* The two ambient globals of the source are explicit parameters:
  `fTestNet` (the network mode) and `fCheckpoints`
  (the value of `GetBoolArg("-checkpoints", true)`).
* `time(NULL)` is the explicit parameter `nNow`.
* `double` arithmetic is read over exact rationals. A division whose
  denominator is zero has no rational value (IEEE yields an infinity or
  a NaN there): `GuessVerificationProgress` answers `none` in that case.
-/

set_option linter.dupNamespace false

namespace Checkpoints

/-- A 256-bit hash, written as the number its hexadecimal literal denotes. -/
abbrev uint256 := Nat

/-- The records of a `std::map<int, uint256>` in iteration (key) order. -/
abbrev MapCheckpoints := List (Int × uint256)

/-- Ordered insertion, as `std::map::insert`: the record goes to its place
in key order, and a key that is already present keeps its old value. -/
def MapCheckpoints.insert : MapCheckpoints → Int × uint256 → MapCheckpoints
  | [], e => [e]
  | (k, v) :: rest, e =>
    if e.1 < k then e :: (k, v) :: rest
    else if e.1 = k then (k, v) :: rest
    else (k, v) :: MapCheckpoints.insert rest e

/-- The map that `boost::assign::map_list_of (k1, v1) (k2, v2) ...` builds:
the records inserted one after the other into an empty map. -/
def map_list_of (l : List (Int × uint256)) : MapCheckpoints :=
  l.foldl MapCheckpoints.insert []

/-- Lookup by key, as `std::map::find`; `none` is the `end()` iterator. -/
def MapCheckpoints.find : MapCheckpoints → Int → Option uint256
  | [], _ => none
  | (k, v) :: rest, key => if key = k then some v else MapCheckpoints.find rest key

/-- How many times slower a transaction after the last checkpoint is
expected to be. -/
def fSigcheckVerificationFactor : ℚ := 5

/-- The per-network checkpoint data: the table and its summary statistics. -/
structure CCheckpointData where
  mapCheckpoints : MapCheckpoints
  nTimeLastCheckpoint : Int
  nTransactionsLastCheckpoint : Int
  fTransactionsPerDay : ℚ

/-- The main-network checkpoint table. -/
def mapCheckpoints : MapCheckpoints :=
  map_list_of
    [ (0,    0x000003a092b42368011e21eab1a1e70450548b02a03ced571ea4a57b7d7d9c01),
      (500,  0x000003721ca2fef8dbb5bb05d9ea1be0058e72372bb27e1fae6f57153cd81a05),
      (1800, 0x00000c36ba4da3709c166fd41dbedac17108b18fc396ad9ca50e58d24220c991),
      (2600, 0x000005db33aad87f6305487443ba928249ecfe12a1b6c74d81dc92d5d5498065),
      (3700, 0x00000e908ba5bd269f72d7c91eb23653805f2bce34d73f494e06e0d06fb53762),
      (4100, 0x00000fc508853e8549b59e7e324cd29f2e7e7c5700b789e400d917f60af1728b),
      (4800, 0x000000105afc5df49f8785a45dac78f48d4680b4d611e0ea013b86086129b093),
      (5010, 0x00000a09eb0e3a3dd07c691969d3674a57f3f4d33a041697a381623174387c9f),
      (5132, 0x00000bdcf03554786088a9b02d3e74281cd0fe5a49ed32607d1e4e7282890a12),
      (6848, 0x00000ae7c837f88a62ff9130d62b20e72d4d8f6ef6ae31cfdb4c4ceea4cc9670),
      (8436, 0x00000834e6fa612e1e844a1d2bfc2d27f7fb7e9dd08f4fc9847d4ac46b1c72a1),
      (9381, 0x00000a1f0af450b014797c8b72aa86f690f75abb52ea221f7ad5e7cc379e46d9) ]

/-- The main-network checkpoint data. -/
def data : CCheckpointData :=
  { mapCheckpoints := mapCheckpoints
    nTimeLastCheckpoint := 1387148858
    nTransactionsLastCheckpoint := 9382
    fTransactionsPerDay := 2880 }

/-- The test-network checkpoint table. -/
def mapCheckpointsTestnet : MapCheckpoints :=
  map_list_of
    [ (0, 0x00000e5e37c42d6b67d0934399adfb0fa48b59138abb1a8842c88f4ca3d4ec96) ]

/-- The test-network checkpoint data. -/
def dataTestnet : CCheckpointData :=
  { mapCheckpoints := mapCheckpointsTestnet
    nTimeLastCheckpoint := 1373481000
    nTransactionsLastCheckpoint := 0
    fTransactionsPerDay := 2880 }

/-- The registry: the checkpoint data of the active network. -/
def Checkpoints (fTestNet : Bool) : CCheckpointData :=
  if fTestNet then dataTestnet else data

/-- Whether a block of the given hash is acceptable at the given height. -/
def CheckBlock (fTestNet fCheckpoints : Bool) (nHeight : Int) (hash : uint256) : Bool :=
  if !fCheckpoints then true
  else
    let checkpoints := (Checkpoints fTestNet).mapCheckpoints
    match MapCheckpoints.find checkpoints nHeight with
    | none => true
    | some pinned => decide (hash = pinned)

/-- Modelled from the spec: the block index node (`CBlockIndex` of main.h,
which is not part of the sources at hand). It carries the height, the
block timestamp and the number of transactions in the chain up to and
including this block; timestamp and count are unsigned. -/
structure CBlockIndex where
  nHeight : Int
  nTime : Nat
  nChainTx : Nat
deriving DecidableEq, Repr

/-- The block index `std::map<uint256, CBlockIndex*>`, as the list of its
records. The index owns its nodes: every stored pointer refers to a node,
so a record holds the node itself. -/
abbrev BlockIndexMap := List (uint256 × CBlockIndex)

/-- Lookup by hash, as `std::map::find`; `none` is the `end()` iterator. -/
def BlockIndexMap.find : BlockIndexMap → uint256 → Option CBlockIndex
  | [], _ => none
  | (k, v) :: rest, key => if key = k then some v else BlockIndexMap.find rest key

/-- The two amounts of work that `GuessVerificationProgress` computes at a
node: `(fWorkBefore, fWorkAfter)`, the work done before the node and the
estimated work left after it. -/
def guessWork (data : CCheckpointData) (pindex : CBlockIndex) (nNow : Int) : ℚ × ℚ :=
  if (pindex.nChainTx : Int) ≤ data.nTransactionsLastCheckpoint then
    let nCheapBefore : ℚ := (pindex.nChainTx : ℚ)
    let nCheapAfter : ℚ := ((data.nTransactionsLastCheckpoint - (pindex.nChainTx : Int) : Int) : ℚ)
    let nExpensiveAfter : ℚ :=
      ((nNow - data.nTimeLastCheckpoint : Int) : ℚ) / 86400 * data.fTransactionsPerDay
    (nCheapBefore, nCheapAfter + nExpensiveAfter * fSigcheckVerificationFactor)
  else
    let nCheapBefore : ℚ := (data.nTransactionsLastCheckpoint : ℚ)
    let nExpensiveBefore : ℚ := (((pindex.nChainTx : Int) - data.nTransactionsLastCheckpoint : Int) : ℚ)
    let nExpensiveAfter : ℚ :=
      ((nNow - (pindex.nTime : Int) : Int) : ℚ) / 86400 * data.fTransactionsPerDay
    (nCheapBefore + nExpensiveBefore * fSigcheckVerificationFactor,
      nExpensiveAfter * fSigcheckVerificationFactor)

/-- Guess how far we are in the verification process at the given block
index. A null `pindex` is `none`; the result `none` is the division by a
zero denominator. -/
def GuessVerificationProgress (fTestNet : Bool) (pindex : Option CBlockIndex) (nNow : Int) :
    Option ℚ :=
  match pindex with
  | none => some 0
  | some p =>
    let w := guessWork (Checkpoints fTestNet) p nNow
    let fWorkBefore := w.1
    let fWorkAfter := w.2
    if fWorkBefore + fWorkAfter = 0 then none
    else some (fWorkBefore / (fWorkBefore + fWorkAfter))

/-- The height of the last checkpoint of the active table, `0` when
checkpoints are disabled. `checkpoints.rbegin()->first` is the key of the
last record in iteration order; on an empty table it has no value. -/
def GetTotalBlocksEstimate (fTestNet fCheckpoints : Bool) : Option Int :=
  if !fCheckpoints then some 0
  else
    let checkpoints := (Checkpoints fTestNet).mapCheckpoints
    checkpoints.getLast?.map Prod.fst

/-- The loop body of `GetLastCheckpoint` over the records still to visit:
the node of the first record whose hash is in the block index. -/
def firstIndexed (mapBlockIndex : BlockIndexMap) : List (Int × uint256) → Option CBlockIndex
  | [] => none
  | i :: rest =>
    match BlockIndexMap.find mapBlockIndex i.2 with
    | some t => some t
    | none => firstIndexed mapBlockIndex rest

/-- The node of the last checkpoint that is in the block index; the table
is visited in reverse iteration order (`BOOST_REVERSE_FOREACH`). -/
def GetLastCheckpoint (fTestNet fCheckpoints : Bool) (mapBlockIndex : BlockIndexMap) :
    Option CBlockIndex :=
  if !fCheckpoints then none
  else
    let checkpoints := (Checkpoints fTestNet).mapCheckpoints
    firstIndexed mapBlockIndex checkpoints.reverse

/-- The timestamp from which `guessWork` measures the time that has passed:
that of the last checkpoint for a node at or before it, the own timestamp
of the node for a node past it. -/
def referenceTime (data : CCheckpointData) (pindex : CBlockIndex) : Int :=
  if (pindex.nChainTx : Int) ≤ data.nTransactionsLastCheckpoint then data.nTimeLastCheckpoint
  else (pindex.nTime : Int)

/-- A block index that holds only the main-network checkpoints of heights
0 and 500. -/
def indexGenesisAnd500 : BlockIndexMap :=
  [ (0x000003a092b42368011e21eab1a1e70450548b02a03ced571ea4a57b7d7d9c01,
      { nHeight := 0, nTime := 1385000000, nChainTx := 1 }),
    (0x000003721ca2fef8dbb5bb05d9ea1be0058e72372bb27e1fae6f57153cd81a05,
      { nHeight := 500, nTime := 1385100000, nChainTx := 501 }) ]

/-- A block index that holds the main-network checkpoints of heights 0,
500 and 1800. -/
def indexUpTo1800 : BlockIndexMap :=
  [ (0x000003a092b42368011e21eab1a1e70450548b02a03ced571ea4a57b7d7d9c01,
      { nHeight := 0, nTime := 1385000000, nChainTx := 1 }),
    (0x000003721ca2fef8dbb5bb05d9ea1be0058e72372bb27e1fae6f57153cd81a05,
      { nHeight := 500, nTime := 1385100000, nChainTx := 501 }),
    (0x00000c36ba4da3709c166fd41dbedac17108b18fc396ad9ca50e58d24220c991,
      { nHeight := 1800, nTime := 1385400000, nChainTx := 1801 }) ]

/-- Division over exact rationals: no value when the divisor is zero. -/
def divide (a b : ℚ) : Option ℚ :=
  if b = 0 then none else some (a / b)

/-- The reference cost model of the progress estimate, written from the
formulas of the specification and not from the code. `L` is the
transaction count and `T` the timestamp of the last checkpoint, `r` the
transaction rate per day, `n` the cumulative transaction count and `t` the
timestamp of the node. -/
def referenceProgress (L T : Int) (r : ℚ) (n t : Nat) (now : Int) : Option ℚ :=
  if (n : Int) ≤ L then
    divide (n : ℚ) ((n : ℚ) + ((L : ℚ) - (n : ℚ)) + 5 * (((now : ℚ) - (T : ℚ)) / 86400) * r)
  else
    divide ((L : ℚ) + 5 * ((n : ℚ) - (L : ℚ)))
      ((L : ℚ) + 5 * ((n : ℚ) - (L : ℚ)) + 5 * (((now : ℚ) - (t : ℚ)) / 86400) * r)

/-! ## The tables -/

/-- The main-network table in iteration order: the literal is already in
increasing key order, so insertion keeps it as written. -/
theorem mapCheckpoints_eq :
    mapCheckpoints =
    [ (0,    0x000003a092b42368011e21eab1a1e70450548b02a03ced571ea4a57b7d7d9c01),
      (500,  0x000003721ca2fef8dbb5bb05d9ea1be0058e72372bb27e1fae6f57153cd81a05),
      (1800, 0x00000c36ba4da3709c166fd41dbedac17108b18fc396ad9ca50e58d24220c991),
      (2600, 0x000005db33aad87f6305487443ba928249ecfe12a1b6c74d81dc92d5d5498065),
      (3700, 0x00000e908ba5bd269f72d7c91eb23653805f2bce34d73f494e06e0d06fb53762),
      (4100, 0x00000fc508853e8549b59e7e324cd29f2e7e7c5700b789e400d917f60af1728b),
      (4800, 0x000000105afc5df49f8785a45dac78f48d4680b4d611e0ea013b86086129b093),
      (5010, 0x00000a09eb0e3a3dd07c691969d3674a57f3f4d33a041697a381623174387c9f),
      (5132, 0x00000bdcf03554786088a9b02d3e74281cd0fe5a49ed32607d1e4e7282890a12),
      (6848, 0x00000ae7c837f88a62ff9130d62b20e72d4d8f6ef6ae31cfdb4c4ceea4cc9670),
      (8436, 0x00000834e6fa612e1e844a1d2bfc2d27f7fb7e9dd08f4fc9847d4ac46b1c72a1),
      (9381, 0x00000a1f0af450b014797c8b72aa86f690f75abb52ea221f7ad5e7cc379e46d9) ] := by
  decide

/-- The test-network table in iteration order. -/
theorem mapCheckpointsTestnet_eq :
    mapCheckpointsTestnet =
    [ (0, 0x00000e5e37c42d6b67d0934399adfb0fa48b59138abb1a8842c88f4ca3d4ec96) ] := by
  decide

/-- The active table of either network, as the list of its records. -/
theorem activeTable_eq (fTestNet : Bool) :
    (Checkpoints fTestNet).mapCheckpoints =
      if fTestNet then mapCheckpointsTestnet else mapCheckpoints := by
  cases fTestNet <;> rfl

/-- Both tables are in strictly increasing height order. -/
theorem activeTable_sorted (fTestNet : Bool) :
    ((Checkpoints fTestNet).mapCheckpoints).Pairwise (fun a b => a.1 < b.1) := by
  cases fTestNet
  · simp only [activeTable_eq, mapCheckpoints_eq]
    decide
  · simp only [activeTable_eq, mapCheckpointsTestnet_eq]
    decide

/-- In a table with increasing heights, `find` at the height of a record
yields the hash of that record. -/
theorem find_of_mem (m : MapCheckpoints) (hs : m.Pairwise (fun a b => a.1 < b.1))
    (h : Int) (pinned : uint256) (hm : (h, pinned) ∈ m) :
    MapCheckpoints.find m h = some pinned := by
  induction m with
  | nil => simp at hm
  | cons e rest ih =>
    obtain ⟨k, v⟩ := e
    rw [List.pairwise_cons] at hs
    rcases List.mem_cons.mp hm with heq | hrest
    · cases heq
      simp [MapCheckpoints.find]
    · have hlt : k < h := hs.1 (h, pinned) hrest
      have hne : h ≠ k := ne_of_gt hlt
      simp [MapCheckpoints.find, hne, ih hs.2 hrest]

/-- A successful `find` yields a record of the table. -/
theorem mem_of_find (m : MapCheckpoints) (h : Int) (pinned : uint256)
    (hf : MapCheckpoints.find m h = some pinned) : (h, pinned) ∈ m := by
  induction m with
  | nil => simp [MapCheckpoints.find] at hf
  | cons e rest ih =>
    obtain ⟨k, v⟩ := e
    by_cases hk : h = k
    · simp [MapCheckpoints.find, hk] at hf
      simp [hk, hf]
    · simp only [MapCheckpoints.find, hk, if_false] at hf
      exact List.mem_cons_of_mem _ (ih hf)

/-- At a height that is no key of the table, `find` yields `end()`. -/
theorem find_eq_none (m : MapCheckpoints) (h : Int)
    (hk : ∀ pinned : uint256, (h, pinned) ∉ m) : MapCheckpoints.find m h = none := by
  cases hf : MapCheckpoints.find m h with
  | none => rfl
  | some pinned => exact absurd (mem_of_find m h pinned hf) (hk pinned)

/-! ## CheckBlock -/

/-- C1: with checkpoints enabled, at the height of a record of the active
table (either network) a hash is accepted exactly when it is the pinned
hash of that record: the pinned hash gives true, every other hash false. -/
theorem CheckBlock_pinned (fTestNet : Bool) (h : Int) (pinned x : uint256)
    (hm : (h, pinned) ∈ (Checkpoints fTestNet).mapCheckpoints) :
    CheckBlock fTestNet true h pinned = true ∧
    (x ≠ pinned → CheckBlock fTestNet true h x = false) ∧
    CheckBlock fTestNet true h x = decide (x = pinned) := by
  have hf := find_of_mem _ (activeTable_sorted fTestNet) h pinned hm
  refine ⟨?_, ?_, ?_⟩
  · simp [CheckBlock, hf]
  · intro hx
    simp [CheckBlock, hf, hx]
  · simp [CheckBlock, hf]

/-- C1, at the main-network record of height 9381: the pinned hash is
accepted, and the hash that differs from it by one is rejected. -/
theorem CheckBlock_pinned_witness :
    ((9381 : Int), 0x00000a1f0af450b014797c8b72aa86f690f75abb52ea221f7ad5e7cc379e46d9)
        ∈ (Checkpoints false).mapCheckpoints ∧
    CheckBlock false true 9381
        0x00000a1f0af450b014797c8b72aa86f690f75abb52ea221f7ad5e7cc379e46d9 = true ∧
    CheckBlock false true 9381
        0x00000a1f0af450b014797c8b72aa86f690f75abb52ea221f7ad5e7cc379e46da = false :=
  have hm : ((9381 : Int), 0x00000a1f0af450b014797c8b72aa86f690f75abb52ea221f7ad5e7cc379e46d9)
      ∈ (Checkpoints false).mapCheckpoints := by decide
  ⟨hm,
   (CheckBlock_pinned false 9381 _
      0x00000a1f0af450b014797c8b72aa86f690f75abb52ea221f7ad5e7cc379e46da hm).1,
   (CheckBlock_pinned false 9381 _
      0x00000a1f0af450b014797c8b72aa86f690f75abb52ea221f7ad5e7cc379e46da hm).2.1
      (by decide)⟩

/-- C2: with checkpoints enabled, at a height that is no key of the active
table every hash is accepted. -/
theorem CheckBlock_unpinned (fTestNet : Bool) (h : Int) (x : uint256)
    (hk : ∀ pinned : uint256, (h, pinned) ∉ (Checkpoints fTestNet).mapCheckpoints) :
    CheckBlock fTestNet true h x = true := by
  simp [CheckBlock, find_eq_none _ h hk]

/-- C2, at the negative height -1 on the main network. -/
theorem CheckBlock_unpinned_witness :
    (∀ pinned : uint256, ((-1 : Int), pinned) ∉ (Checkpoints false).mapCheckpoints) ∧
    CheckBlock false true (-1) 12345 = true :=
  have hk : ∀ pinned : uint256, ((-1 : Int), pinned) ∉ (Checkpoints false).mapCheckpoints := by
    intro pinned
    simp [activeTable_eq, mapCheckpoints_eq]
  ⟨hk, CheckBlock_unpinned false (-1) 12345 hk⟩

/-- C3: with checkpoints disabled every height and hash is accepted on
either network, whatever the table pins. -/
theorem CheckBlock_disabled (fTestNet : Bool) (nHeight : Int) (hash : uint256) :
    CheckBlock fTestNet false nHeight hash = true := by
  simp [CheckBlock]

/-! ## GetLastCheckpoint -/

/-- The loop finds nothing exactly when no visited hash is in the index. -/
theorem firstIndexed_eq_none (idx : BlockIndexMap) (l : List (Int × uint256)) :
    firstIndexed idx l = none ↔ ∀ i ∈ l, BlockIndexMap.find idx i.2 = none := by
  induction l with
  | nil => simp [firstIndexed]
  | cons i rest ih =>
    cases hf : BlockIndexMap.find idx i.2 with
    | none => simp [firstIndexed, hf, ih]
    | some t => simp [firstIndexed, hf]

/-- What the loop finds is the node of the first visited record whose
hash is in the index: the records visited before it are not indexed. -/
theorem firstIndexed_eq_some (idx : BlockIndexMap) (l : List (Int × uint256))
    (node : CBlockIndex) (hf : firstIndexed idx l = some node) :
    ∃ pre i post, l = pre ++ i :: post ∧ BlockIndexMap.find idx i.2 = some node ∧
      ∀ j ∈ pre, BlockIndexMap.find idx j.2 = none := by
  induction l with
  | nil => simp [firstIndexed] at hf
  | cons i rest ih =>
    cases hi : BlockIndexMap.find idx i.2 with
    | some t =>
      simp only [firstIndexed, hi, Option.some.injEq] at hf
      exact ⟨[], i, rest, rfl, by rw [hi, hf], by simp⟩
    | none =>
      simp only [firstIndexed, hi] at hf
      obtain ⟨pre, k, post, hl, hk, hpre⟩ := ih hf
      refine ⟨i :: pre, k, post, by simp [hl], hk, ?_⟩
      intro j hj
      rcases List.mem_cons.mp hj with rfl | hj
      · exact hi
      · exact hpre j hj

/-- C4: with checkpoints enabled, when some hash of the active table is a
key of the block index, `GetLastCheckpoint` returns the node stored under
the hash of a table record whose hash is indexed and above which (in
height) no table record has its hash in the index. -/
theorem GetLastCheckpoint_highest (fTestNet : Bool) (idx : BlockIndexMap)
    (hex : ∃ e ∈ (Checkpoints fTestNet).mapCheckpoints,
      (BlockIndexMap.find idx e.2).isSome = true) :
    ∃ (h : Int) (pinned : uint256) (node : CBlockIndex),
      (h, pinned) ∈ (Checkpoints fTestNet).mapCheckpoints ∧
      BlockIndexMap.find idx pinned = some node ∧
      GetLastCheckpoint fTestNet true idx = some node ∧
      ∀ e ∈ (Checkpoints fTestNet).mapCheckpoints, h < e.1 →
        BlockIndexMap.find idx e.2 = none := by
  obtain ⟨e, he, hsome⟩ := hex
  have hrun : GetLastCheckpoint fTestNet true idx =
      firstIndexed idx ((Checkpoints fTestNet).mapCheckpoints).reverse := by
    simp [GetLastCheckpoint]
  cases hf : firstIndexed idx ((Checkpoints fTestNet).mapCheckpoints).reverse with
  | none =>
    have hnone := (firstIndexed_eq_none idx _).mp hf e (List.mem_reverse.mpr he)
    rw [hnone] at hsome
    simp at hsome
  | some node =>
    obtain ⟨pre, i, post, hl, hi, hpre⟩ := firstIndexed_eq_some idx _ node hf
    have hdesc : (((Checkpoints fTestNet).mapCheckpoints).reverse).Pairwise
        (fun a b => b.1 < a.1) := List.pairwise_reverse.mpr (activeTable_sorted fTestNet)
    rw [hl] at hdesc
    have himem : i ∈ (Checkpoints fTestNet).mapCheckpoints := by
      rw [← List.mem_reverse, hl]
      simp
    refine ⟨i.1, i.2, node, himem, hi, by rw [hrun, hf], ?_⟩
    intro e2 he2 hlt
    have he2r : e2 ∈ pre ++ i :: post := by
      rw [← hl]
      exact List.mem_reverse.mpr he2
    rcases List.mem_append.mp he2r with hp | hq
    · exact hpre e2 hp
    · have hpw := (List.pairwise_append.mp hdesc).2.1
      rw [List.pairwise_cons] at hpw
      rcases List.mem_cons.mp hq with rfl | hpost
      · exact absurd hlt (lt_irrefl _)
      · exact absurd (hpw.1 e2 hpost) (not_lt.mpr (le_of_lt hlt))

/-- C4, on the main network with an index that holds only the checkpoints
of heights 0 and 500: the node of height 500 is returned. -/
theorem GetLastCheckpoint_highest_witness :
    (∃ (h : Int) (pinned : uint256) (node : CBlockIndex),
      (h, pinned) ∈ (Checkpoints false).mapCheckpoints ∧
      BlockIndexMap.find indexGenesisAnd500 pinned = some node ∧
      GetLastCheckpoint false true indexGenesisAnd500 = some node ∧
      ∀ e ∈ (Checkpoints false).mapCheckpoints, h < e.1 →
        BlockIndexMap.find indexGenesisAnd500 e.2 = none) ∧
    GetLastCheckpoint false true indexGenesisAnd500 =
      some { nHeight := 500, nTime := 1385100000, nChainTx := 501 } ∧
    BlockIndexMap.find indexGenesisAnd500
        0x000003721ca2fef8dbb5bb05d9ea1be0058e72372bb27e1fae6f57153cd81a05 =
      some { nHeight := 500, nTime := 1385100000, nChainTx := 501 } :=
  ⟨GetLastCheckpoint_highest false indexGenesisAnd500
      ⟨(0, 0x000003a092b42368011e21eab1a1e70450548b02a03ced571ea4a57b7d7d9c01),
        by decide, by decide⟩,
    by decide, by decide⟩

/-- C5: `GetLastCheckpoint` returns null when checkpoints are disabled, and
when they are enabled and no hash of the active table is a key of the
block index. -/
theorem GetLastCheckpoint_none (fTestNet fCheckpoints : Bool) (idx : BlockIndexMap)
    (h : fCheckpoints = false ∨
      ∀ e ∈ (Checkpoints fTestNet).mapCheckpoints, BlockIndexMap.find idx e.2 = none) :
    GetLastCheckpoint fTestNet fCheckpoints idx = none := by
  cases fCheckpoints with
  | false => simp [GetLastCheckpoint]
  | true =>
    rcases h with h | h
    · cases h
    · have hrun : GetLastCheckpoint fTestNet true idx =
          firstIndexed idx ((Checkpoints fTestNet).mapCheckpoints).reverse := by
        simp [GetLastCheckpoint]
      rw [hrun, firstIndexed_eq_none]
      intro i hi
      exact h i (List.mem_reverse.mp hi)

/-- C5, on the main network: the empty index with checkpoints enabled, and
an index that does hold checkpoints with checkpoints disabled. -/
theorem GetLastCheckpoint_none_witness :
    GetLastCheckpoint false true [] = none ∧
    GetLastCheckpoint false false indexGenesisAnd500 = none :=
  ⟨GetLastCheckpoint_none false true [] (Or.inr (fun _ _ => rfl)),
   GetLastCheckpoint_none false false indexGenesisAnd500 (Or.inl rfl)⟩

/-! ## GetTotalBlocksEstimate -/

/-- C6: with checkpoints enabled the estimate is the greatest height of the
active table: it is defined, no table height exceeds it, it is the height
of a record, and it is 9381 on the main and 0 on the test network. -/
theorem GetTotalBlocksEstimate_max (fTestNet : Bool) :
    ∃ r : Int, GetTotalBlocksEstimate fTestNet true = some r ∧
      (∀ e ∈ (Checkpoints fTestNet).mapCheckpoints, e.1 ≤ r) ∧
      (∃ pinned : uint256, (r, pinned) ∈ (Checkpoints fTestNet).mapCheckpoints) ∧
      r = if fTestNet then 0 else 9381 := by
  cases fTestNet
  · refine ⟨9381, ?_, ?_, ?_, rfl⟩
    · simp [GetTotalBlocksEstimate, activeTable_eq, mapCheckpoints_eq]
    · simp only [activeTable_eq, mapCheckpoints_eq]
      decide
    · exact ⟨0x00000a1f0af450b014797c8b72aa86f690f75abb52ea221f7ad5e7cc379e46d9, by
        simp [activeTable_eq, mapCheckpoints_eq]⟩
  · refine ⟨0, ?_, ?_, ?_, rfl⟩
    · simp [GetTotalBlocksEstimate, activeTable_eq, mapCheckpointsTestnet_eq]
    · simp only [activeTable_eq, mapCheckpointsTestnet_eq]
      decide
    · exact ⟨0x00000e5e37c42d6b67d0934399adfb0fa48b59138abb1a8842c88f4ca3d4ec96, by
        simp [activeTable_eq, mapCheckpointsTestnet_eq]⟩

/-- C7: with checkpoints disabled the estimate is 0 on either network. -/
theorem GetTotalBlocksEstimate_disabled (fTestNet : Bool) :
    GetTotalBlocksEstimate fTestNet false = some 0 := by
  simp [GetTotalBlocksEstimate]

/-! ## GuessVerificationProgress -/

/-- The statistics of either network: a transaction count that is not
negative and a positive rate. -/
theorem Checkpoints_stats (fTestNet : Bool) :
    0 ≤ (Checkpoints fTestNet).nTransactionsLastCheckpoint ∧
    0 ≤ (Checkpoints fTestNet).fTransactionsPerDay := by
  cases fTestNet <;> simp [Checkpoints, data, dataTestnet]

/-- The work before the node is not negative. -/
theorem guessWork_fst_nonneg (d : CCheckpointData) (hL : 0 ≤ d.nTransactionsLastCheckpoint)
    (p : CBlockIndex) (now : Int) : 0 ≤ (guessWork d p now).1 := by
  unfold guessWork
  split_ifs with h
  · simp
  · have hL2 : (0 : ℚ) ≤ (d.nTransactionsLastCheckpoint : ℚ) := by exact_mod_cast hL
    have hn : (0 : ℚ) ≤ (((p.nChainTx : Int) - d.nTransactionsLastCheckpoint : Int) : ℚ) := by
      exact_mod_cast (by omega : (0 : Int) ≤ (p.nChainTx : Int) - d.nTransactionsLastCheckpoint)
    simp only [fSigcheckVerificationFactor]
    positivity

/-- Once a transaction has been processed the work before the node is
positive. -/
theorem guessWork_fst_pos (d : CCheckpointData) (hL : 0 ≤ d.nTransactionsLastCheckpoint)
    (p : CBlockIndex) (now : Int) (hn : 0 < p.nChainTx) : 0 < (guessWork d p now).1 := by
  unfold guessWork
  split_ifs with h
  · simpa using hn
  · have hL2 : (0 : ℚ) ≤ (d.nTransactionsLastCheckpoint : ℚ) := by exact_mod_cast hL
    have hn : (0 : ℚ) < (((p.nChainTx : Int) - d.nTransactionsLastCheckpoint : Int) : ℚ) := by
      exact_mod_cast (by omega : (0 : Int) < (p.nChainTx : Int) - d.nTransactionsLastCheckpoint)
    simp only [fSigcheckVerificationFactor]
    positivity

/-- The work before the node does not depend on the clock. -/
theorem guessWork_fst_now (d : CCheckpointData) (p : CBlockIndex) (now1 now2 : Int) :
    (guessWork d p now1).1 = (guessWork d p now2).1 := by
  unfold guessWork
  split_ifs <;> rfl

/-- The work after the node grows with the clock. -/
theorem guessWork_snd_mono (d : CCheckpointData) (hr : 0 ≤ d.fTransactionsPerDay)
    (p : CBlockIndex) (now1 now2 : Int) (h : now1 ≤ now2) :
    (guessWork d p now1).2 ≤ (guessWork d p now2).2 := by
  have hq : (now1 : ℚ) ≤ (now2 : ℚ) := by exact_mod_cast h
  unfold guessWork
  split_ifs with hc
  · simp only [fSigcheckVerificationFactor]
    push_cast
    have : ((now1 : ℚ) - d.nTimeLastCheckpoint) / 86400 * d.fTransactionsPerDay ≤
        ((now2 : ℚ) - d.nTimeLastCheckpoint) / 86400 * d.fTransactionsPerDay := by
      apply mul_le_mul_of_nonneg_right _ hr
      apply div_le_div_of_nonneg_right _ (by norm_num)
      linarith
    linarith
  · simp only [fSigcheckVerificationFactor]
    push_cast
    have : ((now1 : ℚ) - p.nTime) / 86400 * d.fTransactionsPerDay ≤
        ((now2 : ℚ) - p.nTime) / 86400 * d.fTransactionsPerDay := by
      apply mul_le_mul_of_nonneg_right _ hr
      apply div_le_div_of_nonneg_right _ (by norm_num)
      linarith
    linarith

/-- From the reference timestamp on, the work after the node is not
negative. -/
theorem guessWork_snd_nonneg (d : CCheckpointData) (hr : 0 ≤ d.fTransactionsPerDay)
    (p : CBlockIndex) (now : Int) (h : referenceTime d p ≤ now) :
    0 ≤ (guessWork d p now).2 := by
  unfold referenceTime at h
  unfold guessWork
  split_ifs with hc
  · rw [if_pos hc] at h
    have h1 : (0 : ℚ) ≤ ((d.nTransactionsLastCheckpoint - (p.nChainTx : Int) : Int) : ℚ) := by
      exact_mod_cast (by omega : (0 : Int) ≤ d.nTransactionsLastCheckpoint - (p.nChainTx : Int))
    have h2 : (0 : ℚ) ≤ ((now - d.nTimeLastCheckpoint : Int) : ℚ) := by
      exact_mod_cast (by omega : (0 : Int) ≤ now - d.nTimeLastCheckpoint)
    simp only [fSigcheckVerificationFactor]
    positivity
  · rw [if_neg hc] at h
    have h2 : (0 : ℚ) ≤ ((now - (p.nTime : Int) : Int) : ℚ) := by
      exact_mod_cast (by omega : (0 : Int) ≤ now - (p.nTime : Int))
    simp only [fSigcheckVerificationFactor]
    positivity

/-- The estimate at a node: the quotient of the work before the node by
the total work, and no value when the total is zero. -/
theorem GuessVerificationProgress_some (fTestNet : Bool) (p : CBlockIndex) (now : Int) :
    GuessVerificationProgress fTestNet (some p) now =
      if (guessWork (Checkpoints fTestNet) p now).1 + (guessWork (Checkpoints fTestNet) p now).2 = 0
      then none
      else some ((guessWork (Checkpoints fTestNet) p now).1 /
        ((guessWork (Checkpoints fTestNet) p now).1 + (guessWork (Checkpoints fTestNet) p now).2)) := by
  rfl

/-- C8 (as stated, refuted): on the main network a node past the last
checkpoint whose block timestamp is 1350 seconds ahead of the clock has an
estimate above 1; and on the test network the node without transactions
at the checkpoint timestamp has no estimate at all (zero by zero). -/
theorem GuessVerificationProgress_unit_counterexample :
    GuessVerificationProgress false
        (some { nHeight := 9382, nTime := 1400001350, nChainTx := 9383 }) 1400000000 =
      some (1043 / 1018) ∧
    ¬ ((1043 / 1018 : ℚ) ≤ 1) ∧
    GuessVerificationProgress true
        (some { nHeight := 0, nTime := 1373481000, nChainTx := 0 }) 1373481000 = none := by
  refine ⟨?_, ?_, ?_⟩
  · norm_num [GuessVerificationProgress, guessWork, Checkpoints, data,
      fSigcheckVerificationFactor]
  · norm_num
  · norm_num [GuessVerificationProgress, guessWork, Checkpoints, dataTestnet,
      fSigcheckVerificationFactor]

/-- C8 (amended): the estimate at a node is a number of the interval [0, 1]
exactly when the total work is not zero and either the work before the node
is zero or the work after it is not negative; this is the case whenever the
clock is not before the reference timestamp and the total work is not
zero. -/
theorem GuessVerificationProgress_unit_iff (fTestNet : Bool) (p : CBlockIndex) (now : Int) :
    ((∃ q : ℚ, GuessVerificationProgress fTestNet (some p) now = some q ∧ 0 ≤ q ∧ q ≤ 1) ↔
      ((guessWork (Checkpoints fTestNet) p now).1 + (guessWork (Checkpoints fTestNet) p now).2 ≠ 0 ∧
        ((guessWork (Checkpoints fTestNet) p now).1 = 0 ∨
          0 ≤ (guessWork (Checkpoints fTestNet) p now).2))) ∧
    (referenceTime (Checkpoints fTestNet) p ≤ now →
      (guessWork (Checkpoints fTestNet) p now).1 + (guessWork (Checkpoints fTestNet) p now).2 ≠ 0 →
      ∃ q : ℚ, GuessVerificationProgress fTestNet (some p) now = some q ∧ 0 ≤ q ∧ q ≤ 1) := by
  have hwb := guessWork_fst_nonneg (Checkpoints fTestNet) (Checkpoints_stats fTestNet).1 p now
  have key : ∀ wb wa : ℚ, 0 ≤ wb → wb + wa ≠ 0 → (wb = 0 ∨ 0 ≤ wa) →
      0 ≤ wb / (wb + wa) ∧ wb / (wb + wa) ≤ 1 := by
    intro wb wa h0 hden hcase
    rcases hcase with hz | hwa
    · simp [hz]
    · have hpos : 0 < wb + wa := lt_of_le_of_ne (by linarith) (Ne.symm hden)
      exact ⟨div_nonneg h0 (le_of_lt hpos), (div_le_one hpos).mpr (by linarith)⟩
  rw [GuessVerificationProgress_some]
  generalize (guessWork (Checkpoints fTestNet) p now).1 = wb at hwb ⊢
  generalize hwa : (guessWork (Checkpoints fTestNet) p now).2 = wa
  have hsuff : wb + wa ≠ 0 → (wb = 0 ∨ 0 ≤ wa) →
      ∃ q : ℚ, (if wb + wa = 0 then none else some (wb / (wb + wa))) = some q ∧ 0 ≤ q ∧ q ≤ 1 := by
    intro hden hcase
    exact ⟨wb / (wb + wa), by simp [hden], key wb wa hwb hden hcase⟩
  refine ⟨⟨?_, fun h => hsuff h.1 h.2⟩, ?_⟩
  · rintro ⟨q, hq, hq0, hq1⟩
    by_cases hden : wb + wa = 0
    · simp [hden] at hq
    · refine ⟨hden, ?_⟩
      rw [if_neg hden, Option.some.injEq] at hq
      by_cases hz : wb = 0
      · exact Or.inl hz
      · right
        have hwbpos : 0 < wb := lt_of_le_of_ne hwb (Ne.symm hz)
        have hdpos : 0 < wb + wa := by
          by_contra hneg
          have hlt : wb + wa < 0 := lt_of_le_of_ne (not_lt.mp hneg) hden
          have : wb / (wb + wa) < 0 := div_neg_of_pos_of_neg hwbpos hlt
          linarith
        have hle : wb / (wb + wa) ≤ 1 := by rw [hq]; exact hq1
        have := (div_le_one hdpos).mp hle
        linarith
  · intro href hden
    have hnn := guessWork_snd_nonneg (Checkpoints fTestNet) (Checkpoints_stats fTestNet).2 p now href
    rw [hwa] at hnn
    exact hsuff hden (Or.inr hnn)

/-- C8 (amended), on the main network one day after the last checkpoint
at the node of the last checkpoint. -/
theorem GuessVerificationProgress_unit_witness :
    ∃ q : ℚ, GuessVerificationProgress false
        (some { nHeight := 9381, nTime := 1387148858, nChainTx := 9382 }) 1387235258 = some q ∧
      0 ≤ q ∧ q ≤ 1 :=
  (GuessVerificationProgress_unit_iff false
      { nHeight := 9381, nTime := 1387148858, nChainTx := 9382 } 1387235258).2
    (by decide)
    (by norm_num [guessWork, Checkpoints, data, fSigcheckVerificationFactor])

/-- C9 (as stated, refuted): on the main network, at the node of the last
checkpoint, the estimate is 1 at the checkpoint timestamp and drops to
4691/11891 one day later: a later clock lowered the estimate. -/
theorem GuessVerificationProgress_monotone_counterexample :
    (1387148858 : Int) ≤ 1387235258 ∧
    GuessVerificationProgress false
        (some { nHeight := 9381, nTime := 1387148858, nChainTx := 9382 }) 1387148858 = some 1 ∧
    GuessVerificationProgress false
        (some { nHeight := 9381, nTime := 1387148858, nChainTx := 9382 }) 1387235258 =
      some (4691 / 11891) ∧
    ¬ ((1 : ℚ) ≤ 4691 / 11891) := by
  refine ⟨by decide, ?_, ?_, by norm_num⟩
  · norm_num [GuessVerificationProgress, guessWork, Checkpoints, data,
      fSigcheckVerificationFactor]
  · norm_num [GuessVerificationProgress, guessWork, Checkpoints, data,
      fSigcheckVerificationFactor]

/-- C9 (amended): for a fixed node and two timestamps `now1 ≤ now2` at
which the total work is not zero and has the same sign, both estimates
exist and the one at the later timestamp is not greater: a later clock
never raises the estimate. -/
theorem GuessVerificationProgress_antitone (fTestNet : Bool) (p : CBlockIndex)
    (now1 now2 : Int) (h : now1 ≤ now2)
    (hs : 0 < ((guessWork (Checkpoints fTestNet) p now1).1 +
        (guessWork (Checkpoints fTestNet) p now1).2) *
      ((guessWork (Checkpoints fTestNet) p now2).1 +
        (guessWork (Checkpoints fTestNet) p now2).2)) :
    ∃ q1 q2 : ℚ, GuessVerificationProgress fTestNet (some p) now1 = some q1 ∧
      GuessVerificationProgress fTestNet (some p) now2 = some q2 ∧ q2 ≤ q1 := by
  have hwb := guessWork_fst_nonneg (Checkpoints fTestNet) (Checkpoints_stats fTestNet).1 p now1
  have hsame := guessWork_fst_now (Checkpoints fTestNet) p now2 now1
  have hmono := guessWork_snd_mono (Checkpoints fTestNet) (Checkpoints_stats fTestNet).2
    p now1 now2 h
  rw [GuessVerificationProgress_some, GuessVerificationProgress_some, hsame]
  rw [hsame] at hs
  generalize (guessWork (Checkpoints fTestNet) p now1).1 = wb at hwb hs ⊢
  generalize (guessWork (Checkpoints fTestNet) p now1).2 = wa1 at hmono hs ⊢
  generalize (guessWork (Checkpoints fTestNet) p now2).2 = wa2 at hmono hs ⊢
  have hd1 : wb + wa1 ≠ 0 := by
    intro hz
    simp [hz] at hs
  have hd2 : wb + wa2 ≠ 0 := by
    intro hz
    simp [hz] at hs
  refine ⟨wb / (wb + wa1), wb / (wb + wa2), by simp [hd1], by simp [hd2], ?_⟩
  have hdiff : wb / (wb + wa1) - wb / (wb + wa2) =
      wb * (wa2 - wa1) / ((wb + wa1) * (wb + wa2)) := by
    field_simp
    ring
  have hnn : 0 ≤ wb * (wa2 - wa1) / ((wb + wa1) * (wb + wa2)) :=
    div_nonneg (mul_nonneg hwb (by linarith)) (le_of_lt hs)
  linarith

/-- C9 (amended), on the main network at the node of the last checkpoint,
between the checkpoint timestamp and one day later. -/
theorem GuessVerificationProgress_antitone_witness :
    ∃ q1 q2 : ℚ,
      GuessVerificationProgress false
        (some { nHeight := 9381, nTime := 1387148858, nChainTx := 9382 }) 1387148858 = some q1 ∧
      GuessVerificationProgress false
        (some { nHeight := 9381, nTime := 1387148858, nChainTx := 9382 }) 1387235258 = some q2 ∧
      q2 ≤ q1 :=
  GuessVerificationProgress_antitone false
    { nHeight := 9381, nTime := 1387148858, nChainTx := 9382 } 1387148858 1387235258
    (by decide)
    (by norm_num [guessWork, Checkpoints, data, fSigcheckVerificationFactor])

/-- C10 (as stated, refuted): on the test network the node with 45
transactions whose block timestamp is 1350 seconds ahead of the clock has
work 225 before it and work -225 after it: the total is zero and the
division has no value. -/
theorem guessWork_total_counterexample :
    0 < ({ nHeight := 44, nTime := 1400001350, nChainTx := 45 } : CBlockIndex).nChainTx ∧
    guessWork (Checkpoints true)
        { nHeight := 44, nTime := 1400001350, nChainTx := 45 } 1400000000 = (225, -225) ∧
    GuessVerificationProgress true
        (some { nHeight := 44, nTime := 1400001350, nChainTx := 45 }) 1400000000 = none := by
  refine ⟨by decide, ?_, ?_⟩
  · norm_num [guessWork, Checkpoints, dataTestnet, fSigcheckVerificationFactor]
  · norm_num [GuessVerificationProgress, guessWork, Checkpoints, dataTestnet,
      fSigcheckVerificationFactor]

/-- C10 (amended): at a node with at least one transaction the work before
the node is positive at every clock value; and when the clock is not
before the reference timestamp the total work is positive, so that the
division is defined and the estimate is the quotient. -/
theorem guessWork_total_pos (fTestNet : Bool) (p : CBlockIndex) (now : Int)
    (hn : 0 < p.nChainTx) :
    0 < (guessWork (Checkpoints fTestNet) p now).1 ∧
    (referenceTime (Checkpoints fTestNet) p ≤ now →
      0 < (guessWork (Checkpoints fTestNet) p now).1 + (guessWork (Checkpoints fTestNet) p now).2 ∧
      GuessVerificationProgress fTestNet (some p) now =
        some ((guessWork (Checkpoints fTestNet) p now).1 /
          ((guessWork (Checkpoints fTestNet) p now).1 +
            (guessWork (Checkpoints fTestNet) p now).2))) := by
  have hpos := guessWork_fst_pos (Checkpoints fTestNet) (Checkpoints_stats fTestNet).1 p now hn
  refine ⟨hpos, ?_⟩
  intro href
  have hnn := guessWork_snd_nonneg (Checkpoints fTestNet) (Checkpoints_stats fTestNet).2
    p now href
  have hden : 0 < (guessWork (Checkpoints fTestNet) p now).1 +
      (guessWork (Checkpoints fTestNet) p now).2 := by linarith
  exact ⟨hden, by rw [GuessVerificationProgress_some, if_neg (ne_of_gt hden)]⟩

/-- C10 (amended), on the test network at a node with one transaction
whose block timestamp is 30 seconds behind the clock. -/
theorem guessWork_total_pos_witness :
    0 < (guessWork (Checkpoints true)
        { nHeight := 1, nTime := 1400000000, nChainTx := 1 } 1400000030).1 ∧
    0 < (guessWork (Checkpoints true)
        { nHeight := 1, nTime := 1400000000, nChainTx := 1 } 1400000030).1 +
      (guessWork (Checkpoints true)
        { nHeight := 1, nTime := 1400000000, nChainTx := 1 } 1400000030).2 :=
  have hw := guessWork_total_pos true { nHeight := 1, nTime := 1400000000, nChainTx := 1 }
    1400000030 (by decide)
  ⟨hw.1, (hw.2 (by decide)).1⟩

/-- The transaction rate of either network is positive. -/
theorem Checkpoints_rate_pos (fTestNet : Bool) :
    0 < (Checkpoints fTestNet).fTransactionsPerDay := by
  cases fTestNet <;> simp [Checkpoints, data, dataTestnet]

/-- The work after the node grows strictly with the clock when the rate is
positive. -/
theorem guessWork_snd_strictMono (d : CCheckpointData) (hr : 0 < d.fTransactionsPerDay)
    (p : CBlockIndex) (now1 now2 : Int) (h : now1 < now2) :
    (guessWork d p now1).2 < (guessWork d p now2).2 := by
  have hq : (now1 : ℚ) < (now2 : ℚ) := by exact_mod_cast h
  unfold guessWork
  split_ifs with hc
  · simp only [fSigcheckVerificationFactor]
    push_cast
    have : ((now1 : ℚ) - d.nTimeLastCheckpoint) / 86400 * d.fTransactionsPerDay <
        ((now2 : ℚ) - d.nTimeLastCheckpoint) / 86400 * d.fTransactionsPerDay := by
      apply mul_lt_mul_of_pos_right _ hr
      apply div_lt_div_of_pos_right _ (by norm_num)
      linarith
    linarith
  · simp only [fSigcheckVerificationFactor]
    push_cast
    have : ((now1 : ℚ) - p.nTime) / 86400 * d.fTransactionsPerDay <
        ((now2 : ℚ) - p.nTime) / 86400 * d.fTransactionsPerDay := by
      apply mul_lt_mul_of_pos_right _ hr
      apply div_lt_div_of_pos_right _ (by norm_num)
      linarith
    linarith

/-- C11 (as stated, refuted): on the test network, at the node without
transactions and the checkpoint timestamp, the estimate is not 0.0: the
code divides zero by zero and has no value. -/
theorem GuessVerificationProgress_zero_counterexample :
    GuessVerificationProgress true
        (some { nHeight := 0, nTime := 1373481000, nChainTx := 0 }) 1373481000 ≠ some 0 ∧
    GuessVerificationProgress true
        (some { nHeight := 0, nTime := 1373481000, nChainTx := 0 }) 1373481000 = none := by
  have h : GuessVerificationProgress true
      (some { nHeight := 0, nTime := 1373481000, nChainTx := 0 }) 1373481000 = none := by
    norm_num [GuessVerificationProgress, guessWork, Checkpoints, dataTestnet,
      fSigcheckVerificationFactor]
  exact ⟨by rw [h]; simp, h⟩

/-- C11 (amended): on the test network, whose last checkpoint has
transaction count 0 and timestamp 1373481000, a node without transactions
evaluated at that timestamp takes the first case with work 0 before and
work 0 after it, and the edge is not guarded: the division of zero by zero
is carried out and the estimate has no value. -/
theorem GuessVerificationProgress_zero_unguarded (p : CBlockIndex) (hn : p.nChainTx = 0) :
    (Checkpoints true).nTransactionsLastCheckpoint = 0 ∧
    (Checkpoints true).nTimeLastCheckpoint = 1373481000 ∧
    (p.nChainTx : Int) ≤ (Checkpoints true).nTransactionsLastCheckpoint ∧
    guessWork (Checkpoints true) p 1373481000 = (0, 0) ∧
    GuessVerificationProgress true (some p) 1373481000 = none := by
  have hw : guessWork (Checkpoints true) p 1373481000 = (0, 0) := by
    simp [guessWork, Checkpoints, dataTestnet, hn]
  refine ⟨rfl, rfl, ?_, hw, ?_⟩
  · simp [Checkpoints, dataTestnet, hn]
  · rw [GuessVerificationProgress_some, hw]
    simp

/-- C11 (amended), at the genesis node of the test network. -/
theorem GuessVerificationProgress_zero_unguarded_witness :
    guessWork (Checkpoints true)
        { nHeight := 0, nTime := 1373481000, nChainTx := 0 } 1373481000 = (0, 0) ∧
    GuessVerificationProgress true
        (some { nHeight := 0, nTime := 1373481000, nChainTx := 0 }) 1373481000 = none :=
  have hw := GuessVerificationProgress_zero_unguarded
    { nHeight := 0, nTime := 1373481000, nChainTx := 0 } rfl
  ⟨hw.2.2.2.1, hw.2.2.2.2⟩

/-- C12: at every node and clock value the estimate of the code is that of
the reference cost model: with `n ≤ L` it is `n / (n + (L - n) + 5 *
((now - T) / 86400) * r)`, otherwise `(L + 5 * (n - L)) / (L + 5 * (n - L)
+ 5 * ((now - t) / 86400) * r)`, and both have no value when the
denominator is zero. -/
theorem GuessVerificationProgress_eq_reference (fTestNet : Bool) (p : CBlockIndex) (now : Int) :
    GuessVerificationProgress fTestNet (some p) now =
      referenceProgress (Checkpoints fTestNet).nTransactionsLastCheckpoint
        (Checkpoints fTestNet).nTimeLastCheckpoint (Checkpoints fTestNet).fTransactionsPerDay
        p.nChainTx p.nTime now := by
  rw [GuessVerificationProgress_some]
  unfold referenceProgress divide guessWork
  by_cases hc : (p.nChainTx : Int) ≤ (Checkpoints fTestNet).nTransactionsLastCheckpoint
  · simp only [hc, if_true, fSigcheckVerificationFactor]
    have hden : (p.nChainTx : ℚ) +
        ((((Checkpoints fTestNet).nTransactionsLastCheckpoint - (p.nChainTx : Int) : Int) : ℚ) +
          ((now - (Checkpoints fTestNet).nTimeLastCheckpoint : Int) : ℚ) / 86400 *
            (Checkpoints fTestNet).fTransactionsPerDay * 5) =
        (p.nChainTx : ℚ) + (((Checkpoints fTestNet).nTransactionsLastCheckpoint : ℚ) -
          (p.nChainTx : ℚ)) + 5 * (((now : ℚ) -
            ((Checkpoints fTestNet).nTimeLastCheckpoint : ℚ)) / 86400) *
            (Checkpoints fTestNet).fTransactionsPerDay := by
      push_cast
      ring
    rw [hden]
  · simp only [hc, if_false, fSigcheckVerificationFactor]
    have hnum : ((Checkpoints fTestNet).nTransactionsLastCheckpoint : ℚ) +
        (((p.nChainTx : Int) - (Checkpoints fTestNet).nTransactionsLastCheckpoint : Int) : ℚ) * 5 =
        ((Checkpoints fTestNet).nTransactionsLastCheckpoint : ℚ) +
          5 * ((p.nChainTx : ℚ) - ((Checkpoints fTestNet).nTransactionsLastCheckpoint : ℚ)) := by
      push_cast
      ring
    have hafter : ((now - (p.nTime : Int) : Int) : ℚ) / 86400 *
        (Checkpoints fTestNet).fTransactionsPerDay * 5 =
        5 * (((now : ℚ) - (p.nTime : ℚ)) / 86400) *
          (Checkpoints fTestNet).fTransactionsPerDay := by
      push_cast
      ring
    rw [hnum, hafter]

/-- C13: without a node the estimate is exactly 0 at every clock value
and on either network. -/
theorem GuessVerificationProgress_null (fTestNet : Bool) (now : Int) :
    GuessVerificationProgress fTestNet none now = some 0 := by
  rfl

/-! ## The table invariant and the registry -/

/-- C14: both compiled-in tables satisfy the table invariant: the main
table has 12 records and the test table 1, so neither is empty; heights
are not negative, pairwise distinct and strictly increasing in iteration
order; and the estimate with checkpoints enabled has a value on either
network (the last record exists). -/
theorem activeTable_invariant (fTestNet : Bool) :
    ((Checkpoints fTestNet).mapCheckpoints).length = (if fTestNet then 1 else 12) ∧
    (Checkpoints fTestNet).mapCheckpoints ≠ [] ∧
    (∀ e ∈ (Checkpoints fTestNet).mapCheckpoints, 0 ≤ e.1) ∧
    (((Checkpoints fTestNet).mapCheckpoints).map Prod.fst).Nodup ∧
    ((Checkpoints fTestNet).mapCheckpoints).Pairwise (fun a b => a.1 < b.1) ∧
    (GetTotalBlocksEstimate fTestNet true).isSome = true := by
  refine ⟨?_, ?_, ?_, ?_, activeTable_sorted fTestNet, ?_⟩
  · cases fTestNet
    · simp [activeTable_eq, mapCheckpoints_eq]
    · simp [activeTable_eq, mapCheckpointsTestnet_eq]
  · cases fTestNet
    · simp [activeTable_eq, mapCheckpoints_eq]
    · simp [activeTable_eq, mapCheckpointsTestnet_eq]
  · cases fTestNet
    · simp only [activeTable_eq, mapCheckpoints_eq]
      decide
    · simp only [activeTable_eq, mapCheckpointsTestnet_eq]
      decide
  · cases fTestNet
    · simp only [activeTable_eq, mapCheckpoints_eq]
      decide
    · simp only [activeTable_eq, mapCheckpointsTestnet_eq]
      decide
  · cases fTestNet
    · simp [GetTotalBlocksEstimate, activeTable_eq, mapCheckpoints_eq]
    · simp [GetTotalBlocksEstimate, activeTable_eq, mapCheckpointsTestnet_eq]

/-- C15: the registry follows the network mode. In test mode the active
table is the single record of height 0 with statistics (1373481000, 0,
2880); in main mode it is the main table of 12 records with statistics
(1387148858, 9382, 2880). With checkpoints enabled the main-network
genesis hash is accepted at height 0 in main mode and rejected there in
test mode, and at height 500 every hash is accepted in test mode. -/
theorem Checkpoints_registry :
    (Checkpoints true).mapCheckpoints =
      [ (0, 0x00000e5e37c42d6b67d0934399adfb0fa48b59138abb1a8842c88f4ca3d4ec96) ] ∧
    (Checkpoints true).nTimeLastCheckpoint = 1373481000 ∧
    (Checkpoints true).nTransactionsLastCheckpoint = 0 ∧
    (Checkpoints true).fTransactionsPerDay = 2880 ∧
    (Checkpoints false).mapCheckpoints = mapCheckpoints ∧
    ((Checkpoints false).mapCheckpoints).length = 12 ∧
    (Checkpoints false).nTimeLastCheckpoint = 1387148858 ∧
    (Checkpoints false).nTransactionsLastCheckpoint = 9382 ∧
    (Checkpoints false).fTransactionsPerDay = 2880 ∧
    CheckBlock false true 0
        0x000003a092b42368011e21eab1a1e70450548b02a03ced571ea4a57b7d7d9c01 = true ∧
    CheckBlock true true 0
        0x000003a092b42368011e21eab1a1e70450548b02a03ced571ea4a57b7d7d9c01 = false ∧
    (∀ x : uint256, CheckBlock true true 500 x = true) ∧
    GetTotalBlocksEstimate true true = some 0 ∧
    GetTotalBlocksEstimate false true = some 9381 := by
  refine ⟨by decide, rfl, rfl, rfl, rfl, by decide, rfl, rfl, rfl, by decide, by decide,
    ?_, by decide, by decide⟩
  intro x
  simp [CheckBlock, activeTable_eq, mapCheckpointsTestnet_eq, MapCheckpoints.find]

/-! ## The estimate under the clock precondition -/

/-- C16: at a node with at least one transaction, when the clock is not
before the reference timestamp of the node's case, the work after the node
is not negative, the total work is positive, and the estimate is a number
of the interval (0, 1] that is 1 exactly when the work after the node is
zero. -/
theorem GuessVerificationProgress_range (fTestNet : Bool) (p : CBlockIndex) (now : Int)
    (hn : 0 < p.nChainTx) (href : referenceTime (Checkpoints fTestNet) p ≤ now) :
    0 ≤ (guessWork (Checkpoints fTestNet) p now).2 ∧
    0 < (guessWork (Checkpoints fTestNet) p now).1 + (guessWork (Checkpoints fTestNet) p now).2 ∧
    ∃ q : ℚ, GuessVerificationProgress fTestNet (some p) now = some q ∧ 0 < q ∧ q ≤ 1 ∧
      (q = 1 ↔ (guessWork (Checkpoints fTestNet) p now).2 = 0) := by
  have hwb := guessWork_fst_pos (Checkpoints fTestNet) (Checkpoints_stats fTestNet).1 p now hn
  have hwa := guessWork_snd_nonneg (Checkpoints fTestNet) (Checkpoints_stats fTestNet).2
    p now href
  rw [GuessVerificationProgress_some]
  generalize (guessWork (Checkpoints fTestNet) p now).1 = wb at hwb ⊢
  generalize (guessWork (Checkpoints fTestNet) p now).2 = wa at hwa ⊢
  have hden : 0 < wb + wa := by linarith
  refine ⟨hwa, hden, wb / (wb + wa), by simp [ne_of_gt hden], div_pos hwb hden,
    (div_le_one hden).mpr (by linarith), ?_⟩
  rw [div_eq_one_iff_eq (ne_of_gt hden)]
  constructor
  · intro h
    linarith
  · intro h
    rw [h, add_zero]

/-- C16, on the main network at a node of 100 transactions, one day after
the last checkpoint. -/
theorem GuessVerificationProgress_range_witness :
    ∃ q : ℚ, GuessVerificationProgress false
        (some { nHeight := 99, nTime := 1385000000, nChainTx := 100 }) 1387235258 = some q ∧
      0 < q ∧ q ≤ 1 :=
  have hw := GuessVerificationProgress_range false
    { nHeight := 99, nTime := 1385000000, nChainTx := 100 } 1387235258
    (by decide) (by decide)
  match hw.2.2 with
  | ⟨q, hq, hpos, hle, _⟩ => ⟨q, hq, hpos, hle⟩

/-- C17: at a fixed node with at least one transaction and two clock values
`now1 ≤ now2`, both not before the reference timestamp, the work after the
node at `now2` is not less than at `now1` and the estimate at `now2` is
not greater than at `now1`; with `now1 < now2` both inequalities are
strict. -/
theorem GuessVerificationProgress_decreasing (fTestNet : Bool) (p : CBlockIndex)
    (now1 now2 : Int) (hn : 0 < p.nChainTx)
    (href : referenceTime (Checkpoints fTestNet) p ≤ now1) (h : now1 ≤ now2) :
    (guessWork (Checkpoints fTestNet) p now1).2 ≤ (guessWork (Checkpoints fTestNet) p now2).2 ∧
    (now1 < now2 →
      (guessWork (Checkpoints fTestNet) p now1).2 < (guessWork (Checkpoints fTestNet) p now2).2) ∧
    ∃ q1 q2 : ℚ, GuessVerificationProgress fTestNet (some p) now1 = some q1 ∧
      GuessVerificationProgress fTestNet (some p) now2 = some q2 ∧ q2 ≤ q1 ∧
      (now1 < now2 → q2 < q1) := by
  have hwb := guessWork_fst_pos (Checkpoints fTestNet) (Checkpoints_stats fTestNet).1 p now1 hn
  have hsame := guessWork_fst_now (Checkpoints fTestNet) p now2 now1
  have hmono := guessWork_snd_mono (Checkpoints fTestNet) (Checkpoints_stats fTestNet).2
    p now1 now2 h
  have hstrict := guessWork_snd_strictMono (Checkpoints fTestNet) (Checkpoints_rate_pos fTestNet)
    p now1 now2
  have hwa := guessWork_snd_nonneg (Checkpoints fTestNet) (Checkpoints_stats fTestNet).2
    p now1 href
  rw [GuessVerificationProgress_some, GuessVerificationProgress_some, hsame]
  generalize (guessWork (Checkpoints fTestNet) p now1).1 = wb at hwb ⊢
  generalize (guessWork (Checkpoints fTestNet) p now1).2 = wa1 at hmono hstrict hwa ⊢
  generalize (guessWork (Checkpoints fTestNet) p now2).2 = wa2 at hmono hstrict ⊢
  have hd1 : 0 < wb + wa1 := by linarith
  have hd2 : 0 < wb + wa2 := by linarith
  refine ⟨hmono, hstrict, wb / (wb + wa1), wb / (wb + wa2), by simp [ne_of_gt hd1],
    by simp [ne_of_gt hd2], ?_, ?_⟩
  · exact div_le_div_of_nonneg_left (le_of_lt hwb) hd1 (by linarith)
  · intro hlt
    exact div_lt_div_of_pos_left hwb hd1 (by linarith [hstrict hlt])

/-- C17, on the main network at a node of 100 transactions, between the
timestamp of the last checkpoint and one day later. -/
theorem GuessVerificationProgress_decreasing_witness :
    ∃ q1 q2 : ℚ,
      GuessVerificationProgress false
        (some { nHeight := 99, nTime := 1385000000, nChainTx := 100 }) 1387148858 = some q1 ∧
      GuessVerificationProgress false
        (some { nHeight := 99, nTime := 1385000000, nChainTx := 100 }) 1387235258 = some q2 ∧
      q2 < q1 :=
  have hw := GuessVerificationProgress_decreasing false
    { nHeight := 99, nTime := 1385000000, nChainTx := 100 } 1387148858 1387235258
    (by decide) (by decide) (by decide)
  match hw.2.2 with
  | ⟨q1, q2, h1, h2, _, hlt⟩ => ⟨q1, q2, h1, h2, hlt (by decide)⟩

/-! ## Monotonicity of the locator and of the estimate -/

/-- What `GetLastCheckpoint` returns with checkpoints enabled is stored
under the hash of a table record above which no record is indexed. -/
theorem GetLastCheckpoint_found (fTestNet : Bool) (idx : BlockIndexMap) (node : CBlockIndex)
    (hf : GetLastCheckpoint fTestNet true idx = some node) :
    ∃ (h : Int) (pinned : uint256),
      (h, pinned) ∈ (Checkpoints fTestNet).mapCheckpoints ∧
      BlockIndexMap.find idx pinned = some node ∧
      ∀ e ∈ (Checkpoints fTestNet).mapCheckpoints, h < e.1 →
        BlockIndexMap.find idx e.2 = none := by
  have hrun : GetLastCheckpoint fTestNet true idx =
      firstIndexed idx ((Checkpoints fTestNet).mapCheckpoints).reverse := by
    simp [GetLastCheckpoint]
  rw [hrun] at hf
  obtain ⟨pre, i, post, hl, hi, hpre⟩ := firstIndexed_eq_some idx _ node hf
  have hdesc : (((Checkpoints fTestNet).mapCheckpoints).reverse).Pairwise
      (fun a b => b.1 < a.1) := List.pairwise_reverse.mpr (activeTable_sorted fTestNet)
  rw [hl] at hdesc
  have himem : i ∈ (Checkpoints fTestNet).mapCheckpoints := by
    rw [← List.mem_reverse, hl]
    simp
  refine ⟨i.1, i.2, himem, hi, ?_⟩
  intro e2 he2 hlt
  have he2r : e2 ∈ pre ++ i :: post := by
    rw [← hl]
    exact List.mem_reverse.mpr he2
  rcases List.mem_append.mp he2r with hp | hq
  · exact hpre e2 hp
  · have hpw := (List.pairwise_append.mp hdesc).2.1
    rw [List.pairwise_cons] at hpw
    rcases List.mem_cons.mp hq with rfl | hpost
    · exact absurd hlt (lt_irrefl _)
    · exact absurd (hpw.1 e2 hpost) (not_lt.mpr (le_of_lt hlt))

/-- C18: with checkpoints enabled, when every key of a first block index
is a key of a second one and `GetLastCheckpoint` finds a node in the
first, it finds a node in the second as well, and the table record under
whose hash the second node is stored has a height not below that of the
record of the first: a larger index never lowers the checkpoint found. -/
theorem GetLastCheckpoint_mono (fTestNet : Bool) (idx1 idx2 : BlockIndexMap)
    (node1 : CBlockIndex)
    (hsub : ∀ k : uint256, (BlockIndexMap.find idx1 k).isSome = true →
      (BlockIndexMap.find idx2 k).isSome = true)
    (hf : GetLastCheckpoint fTestNet true idx1 = some node1) :
    ∃ (h1 h2 : Int) (p1 p2 : uint256) (node2 : CBlockIndex),
      (h1, p1) ∈ (Checkpoints fTestNet).mapCheckpoints ∧
      BlockIndexMap.find idx1 p1 = some node1 ∧
      (∀ e ∈ (Checkpoints fTestNet).mapCheckpoints, h1 < e.1 →
        BlockIndexMap.find idx1 e.2 = none) ∧
      GetLastCheckpoint fTestNet true idx2 = some node2 ∧
      (h2, p2) ∈ (Checkpoints fTestNet).mapCheckpoints ∧
      BlockIndexMap.find idx2 p2 = some node2 ∧
      (∀ e ∈ (Checkpoints fTestNet).mapCheckpoints, h2 < e.1 →
        BlockIndexMap.find idx2 e.2 = none) ∧
      h1 ≤ h2 := by
  obtain ⟨h1, p1, hm1, hfind1, htop1⟩ := GetLastCheckpoint_found fTestNet idx1 node1 hf
  have hkey2 : (BlockIndexMap.find idx2 p1).isSome = true := hsub p1 (by rw [hfind1]; rfl)
  have hrun : GetLastCheckpoint fTestNet true idx2 =
      firstIndexed idx2 ((Checkpoints fTestNet).mapCheckpoints).reverse := by
    simp [GetLastCheckpoint]
  cases hf2 : GetLastCheckpoint fTestNet true idx2 with
  | none =>
    rw [hrun] at hf2
    have hnone := (firstIndexed_eq_none idx2 _).mp hf2 (h1, p1) (List.mem_reverse.mpr hm1)
    rw [hnone] at hkey2
    simp at hkey2
  | some node2 =>
    obtain ⟨h2, p2, hm2, hfind2, htop2⟩ := GetLastCheckpoint_found fTestNet idx2 node2 hf2
    refine ⟨h1, h2, p1, p2, node2, hm1, hfind1, htop1, rfl, hm2, hfind2, htop2, ?_⟩
    by_contra hlt
    have hnone := htop2 (h1, p1) hm1 (not_le.mp hlt)
    rw [hnone] at hkey2
    simp at hkey2

/-- The keys of the index with the checkpoints 0 and 500 are keys of the
index with the checkpoints 0, 500 and 1800. -/
theorem indexGenesisAnd500_keys (k : uint256)
    (hk : (BlockIndexMap.find indexGenesisAnd500 k).isSome = true) :
    (BlockIndexMap.find indexUpTo1800 k).isSome = true := by
  unfold indexGenesisAnd500 at hk
  unfold indexUpTo1800
  simp only [BlockIndexMap.find] at hk ⊢
  split_ifs at hk ⊢ <;> simp_all

/-- C18, on the main network: from the index with the checkpoints 0 and
500 to the one that also holds the checkpoint 1800, a node is found in
both, and the second one is the node of height 1800. -/
theorem GetLastCheckpoint_mono_witness :
    (∃ (h1 h2 : Int) (p1 p2 : uint256) (node2 : CBlockIndex),
      (h1, p1) ∈ (Checkpoints false).mapCheckpoints ∧
      BlockIndexMap.find indexGenesisAnd500 p1 =
        some { nHeight := 500, nTime := 1385100000, nChainTx := 501 } ∧
      (∀ e ∈ (Checkpoints false).mapCheckpoints, h1 < e.1 →
        BlockIndexMap.find indexGenesisAnd500 e.2 = none) ∧
      GetLastCheckpoint false true indexUpTo1800 = some node2 ∧
      (h2, p2) ∈ (Checkpoints false).mapCheckpoints ∧
      BlockIndexMap.find indexUpTo1800 p2 = some node2 ∧
      (∀ e ∈ (Checkpoints false).mapCheckpoints, h2 < e.1 →
        BlockIndexMap.find indexUpTo1800 e.2 = none) ∧
      h1 ≤ h2) ∧
    GetLastCheckpoint false true indexUpTo1800 =
      some { nHeight := 1800, nTime := 1385400000, nChainTx := 1801 } :=
  ⟨GetLastCheckpoint_mono false indexGenesisAnd500 indexUpTo1800
      { nHeight := 500, nTime := 1385100000, nChainTx := 501 }
      indexGenesisAnd500_keys (by decide),
    by decide⟩

/-- C19: at a fixed clock value the estimate does not fall with the number
of verified transactions. For two nodes with transaction counts `a ≤ b`:
when `0 < a`, `b` is at most the count of the last checkpoint and the clock
is not before the checkpoint timestamp, the total work is the same at both
nodes and the estimate of the first is at most that of the second; when
`a` is above the count of the last checkpoint, both nodes have the same
block timestamp and the clock is not before it, the estimate of the first
is at most that of the second. -/
theorem GuessVerificationProgress_mono_tx (fTestNet : Bool) (p1 p2 : CBlockIndex) (now : Int)
    (hab : p1.nChainTx ≤ p2.nChainTx)
    (hcase :
      (0 < p1.nChainTx ∧
        (p2.nChainTx : Int) ≤ (Checkpoints fTestNet).nTransactionsLastCheckpoint ∧
        (Checkpoints fTestNet).nTimeLastCheckpoint ≤ now) ∨
      ((Checkpoints fTestNet).nTransactionsLastCheckpoint < (p1.nChainTx : Int) ∧
        p1.nTime = p2.nTime ∧ (p1.nTime : Int) ≤ now)) :
    ((p2.nChainTx : Int) ≤ (Checkpoints fTestNet).nTransactionsLastCheckpoint →
      (guessWork (Checkpoints fTestNet) p1 now).1 + (guessWork (Checkpoints fTestNet) p1 now).2 =
      (guessWork (Checkpoints fTestNet) p2 now).1 + (guessWork (Checkpoints fTestNet) p2 now).2) ∧
    ∃ q1 q2 : ℚ, GuessVerificationProgress fTestNet (some p1) now = some q1 ∧
      GuessVerificationProgress fTestNet (some p2) now = some q2 ∧ q1 ≤ q2 := by
  have hL := (Checkpoints_stats fTestNet).1
  have hr := (Checkpoints_stats fTestNet).2
  have habq : (p1.nChainTx : ℚ) ≤ (p2.nChainTx : ℚ) := by exact_mod_cast hab
  have habz : (p1.nChainTx : Int) ≤ (p2.nChainTx : Int) := by exact_mod_cast hab
  rw [GuessVerificationProgress_some, GuessVerificationProgress_some]
  generalize Checkpoints fTestNet = d at hL hr hcase ⊢
  have hsame : (p2.nChainTx : Int) ≤ d.nTransactionsLastCheckpoint →
      (guessWork d p1 now).1 + (guessWork d p1 now).2 =
      (guessWork d p2 now).1 + (guessWork d p2 now).2 := by
    intro hc2
    have hc1 : (p1.nChainTx : Int) ≤ d.nTransactionsLastCheckpoint := le_trans habz hc2
    simp only [guessWork, hc1, hc2, if_true]
    push_cast
    ring
  refine ⟨hsame, ?_⟩
  rcases hcase with ⟨ha, hc2, hnow⟩ | ⟨hc1, ht, hnow⟩
  · have hc1 : (p1.nChainTx : Int) ≤ d.nTransactionsLastCheckpoint := le_trans habz hc2
    have hden := hsame hc2
    have hwa : 0 ≤ (guessWork d p1 now).2 :=
      guessWork_snd_nonneg d hr p1 now (by simpa [referenceTime, hc1] using hnow)
    have hwb : 0 < (guessWork d p1 now).1 := guessWork_fst_pos d hL p1 now ha
    have hpos : 0 < (guessWork d p1 now).1 + (guessWork d p1 now).2 := by linarith
    have hpos2 : 0 < (guessWork d p2 now).1 + (guessWork d p2 now).2 := by rw [← hden]; exact hpos
    have h1 : (guessWork d p1 now).1 = (p1.nChainTx : ℚ) := by simp [guessWork, hc1]
    have h2 : (guessWork d p2 now).1 = (p2.nChainTx : ℚ) := by simp [guessWork, hc2]
    refine ⟨_, _, by rw [if_neg (ne_of_gt hpos)], by rw [if_neg (ne_of_gt hpos2)], ?_⟩
    have hwb12 : (guessWork d p1 now).1 ≤ (guessWork d p2 now).1 := by
      rw [h1, h2]
      exact habq
    rw [← hden]
    exact div_le_div_of_nonneg_right hwb12 (le_of_lt hpos)
  · have hn1 : ¬ (p1.nChainTx : Int) ≤ d.nTransactionsLastCheckpoint := not_le.mpr hc1
    have hn2 : ¬ (p2.nChainTx : Int) ≤ d.nTransactionsLastCheckpoint :=
      not_le.mpr (lt_of_lt_of_le hc1 habz)
    have hpos1 : 0 < p1.nChainTx := by omega
    have hwb1 : 0 < (guessWork d p1 now).1 := guessWork_fst_pos d hL p1 now hpos1
    have hwa1 : 0 ≤ (guessWork d p1 now).2 :=
      guessWork_snd_nonneg d hr p1 now (by simpa [referenceTime, hn1] using hnow)
    have hwa : (guessWork d p2 now).2 = (guessWork d p1 now).2 := by
      simp [guessWork, hn1, hn2, ht]
    have hwb : (guessWork d p1 now).1 ≤ (guessWork d p2 now).1 := by
      simp only [guessWork, hn1, hn2, if_false, fSigcheckVerificationFactor]
      push_cast
      linarith
    rw [hwa]
    generalize (guessWork d p1 now).1 = wb1 at hwb1 hwb ⊢
    generalize (guessWork d p2 now).1 = wb2 at hwb ⊢
    generalize (guessWork d p1 now).2 = wa at hwa1 ⊢
    have hd1 : 0 < wb1 + wa := by linarith
    have hd2 : 0 < wb2 + wa := by linarith
    refine ⟨_, _, by rw [if_neg (ne_of_gt hd1)], by rw [if_neg (ne_of_gt hd2)], ?_⟩
    rw [div_le_div_iff₀ hd1 hd2]
    nlinarith

/-- C19, on the main network one day after the last checkpoint: two nodes
at or before the checkpoint with 100 and 200 transactions, and two nodes
past it with 9400 and 9500 transactions and the same block timestamp. -/
theorem GuessVerificationProgress_mono_tx_witness :
    (∃ q1 q2 : ℚ,
      GuessVerificationProgress false
        (some { nHeight := 99, nTime := 1385000000, nChainTx := 100 }) 1387235258 = some q1 ∧
      GuessVerificationProgress false
        (some { nHeight := 199, nTime := 1385100000, nChainTx := 200 }) 1387235258 = some q2 ∧
      q1 ≤ q2) ∧
    (∃ q1 q2 : ℚ,
      GuessVerificationProgress false
        (some { nHeight := 9399, nTime := 1387200000, nChainTx := 9400 }) 1387235258 = some q1 ∧
      GuessVerificationProgress false
        (some { nHeight := 9499, nTime := 1387200000, nChainTx := 9500 }) 1387235258 = some q2 ∧
      q1 ≤ q2) :=
  ⟨(GuessVerificationProgress_mono_tx false
      { nHeight := 99, nTime := 1385000000, nChainTx := 100 }
      { nHeight := 199, nTime := 1385100000, nChainTx := 200 } 1387235258
      (by decide) (Or.inl ⟨by decide, by decide, by decide⟩)).2,
   (GuessVerificationProgress_mono_tx false
      { nHeight := 9399, nTime := 1387200000, nChainTx := 9400 }
      { nHeight := 9499, nTime := 1387200000, nChainTx := 9500 } 1387235258
      (by decide) (Or.inr ⟨by decide, rfl, by decide⟩)).2⟩

end Checkpoints
